import Mathlib

/-!
Verification of the drop-out prediction dashboard
(`dropout_dashboard_extended.py`).

The development shallowly embeds the core of the program:
* the unified per-student record (`StudentRecord`),
* the rule-based risk classifier `calculate_risk`,
* the three-way outer-join reconciliation of the attendance,
  test-score and fee-payment tables (`outerMerge`, `reconcile`),
* the seeded synthetic data generator `generate_student_data`
  (threading the numpy global random-generator state explicitly),
* the ingestion pipeline with its synthetic-data fallback (`pipeline`),
* the filter and email-notification stages (`filteredData`, `notifyStep`).

Numeric record fields are modelled as rationals (the Python code performs
exact comparisons against integer thresholds); Python strings are Lean
strings.  External collaborators (pandas CSV parsing, the Streamlit UI,
the SMTP transport, numpy's random library) are modelled at their
interfaces: parsing results arrive as `Except`, user-visible output is a
list of `Msg` values, per-recipient SMTP outcomes are an oracle
`sendOK`, and the numpy global generator is an explicit state machine.
-/

/-- One unified per-student row, as produced by the reconciler or the
synthetic generator.  `attendancePct` is the `Attendance%` column. -/
structure StudentRecord where
  StudentID : String
  Name : String
  Standard : String
  Division : String
  attendancePct : ℚ
  Attempts : ℚ
  Test1_Score : ℚ
  Test2_Score : ℚ
  Test3_Score : ℚ
  Fee_Delay_Days : ℚ
deriving DecidableEq, Repr

/-- `calculate_risk` (source lines 40-56): accumulate an integer score by
the four rules, then map to a label.  Python's chained comparison
`a < b < c` means `a < b ∧ b < c`. -/
def calculate_risk (row : StudentRecord) : String :=
  let risk_score : ℕ := 0
  let risk_score := if row.attendancePct < 75 then risk_score + 2 else risk_score
  let risk_score := if row.Attempts > 3 then risk_score + 2 else risk_score
  let risk_score :=
    if row.Test3_Score < row.Test2_Score ∧ row.Test2_Score < row.Test1_Score
    then risk_score + 1 else risk_score
  let risk_score := if row.Fee_Delay_Days > 15 then risk_score + 1 else risk_score
  if risk_score ≥ 4 then "High"
  else if risk_score ≥ 2 then "Medium"
  else "Low"

/-- Spec-side restatement (§4.2 rule 1): points contributed by the
attendance rule. -/
def attendancePoints (row : StudentRecord) : ℕ :=
  if row.attendancePct < 75 then 2 else 0

/-- Spec-side restatement (§4.2 rule 2): points contributed by the
re-attempt rule. -/
def attemptsPoints (row : StudentRecord) : ℕ :=
  if row.Attempts > 3 then 2 else 0

/-- Spec-side restatement (§4.2 rule 3): points contributed by the
strictly-decreasing test-score trend rule. -/
def trendPoints (row : StudentRecord) : ℕ :=
  if row.Test3_Score < row.Test2_Score ∧ row.Test2_Score < row.Test1_Score
  then 1 else 0

/-- Spec-side restatement (§4.2 rule 4): points contributed by the
fee-delay rule. -/
def feePoints (row : StudentRecord) : ℕ :=
  if row.Fee_Delay_Days > 15 then 1 else 0

/-- Spec-side restatement: the total risk score is the sum of the four
independently evaluated rules, starting from 0. -/
def riskScoreSpec (row : StudentRecord) : ℕ :=
  attendancePoints row + attemptsPoints row + trendPoints row + feePoints row

/-- Spec-side restatement of the label mapping (first match wins):
`score >= 4` is High, `score >= 2` is Medium, otherwise Low. -/
def riskLabelSpec (score : ℕ) : String :=
  if score ≥ 4 then "High" else if score ≥ 2 then "Medium" else "Low"

/-- §3 field domains of a well-formed record: attendance and the three
test scores lie in `[0,100]`, `Attempts` is at least 1, and the fee
delay is non-negative. -/
def ValidRecord (r : StudentRecord) : Prop :=
  0 ≤ r.attendancePct ∧ r.attendancePct ≤ 100 ∧
  1 ≤ r.Attempts ∧
  0 ≤ r.Test1_Score ∧ r.Test1_Score ≤ 100 ∧
  0 ≤ r.Test2_Score ∧ r.Test2_Score ≤ 100 ∧
  0 ≤ r.Test3_Score ∧ r.Test3_Score ≤ 100 ∧
  0 ≤ r.Fee_Delay_Days

instance (r : StudentRecord) : Decidable (ValidRecord r) := by
  unfold ValidRecord; infer_instance

/-- One row of the uploaded attendance CSV (§4.1: StudentID,
Attendance%, Attempts, Name, Standard, Division). -/
structure AttRow where
  StudentID : String
  Name : String
  Standard : String
  Division : String
  attendancePct : ℚ
  Attempts : ℚ
deriving DecidableEq, Repr

/-- One row of the uploaded test-scores CSV (§4.1: StudentID and the
three test scores). -/
structure TestRow where
  StudentID : String
  Test1_Score : ℚ
  Test2_Score : ℚ
  Test3_Score : ℚ
deriving DecidableEq, Repr

/-- One row of the uploaded fee-payment CSV (§4.1: StudentID and
Fee_Delay_Days). -/
structure FeeRow where
  StudentID : String
  Fee_Delay_Days : ℚ
deriving DecidableEq, Repr

/-- `DataFrame.merge(other, on="StudentID", how="outer")` (source lines
95-96), for tables modelled as lists of typed rows with key functions
`ka`, `kb`: every left row is joined with each right row of equal key
(absent match giving a right-`none` row), and right rows whose key
matches no left row are appended with a left-`none` row.  A field that
pandas would fill with NaN is `none`.

`joinRows` builds the rows driven by one left row `a`: one row per
right row of equal key, or a single right-`none` row when no right key
matches. -/
def joinRows {α β : Type} (ka : α → String) (kb : β → String)
    (r : List β) (a : α) : List (String × Option α × Option β) :=
  let ms := r.filter (fun b => kb b == ka a)
  if ms.isEmpty then [(ka a, some a, none)]
  else ms.map (fun b => (ka a, some a, some b))

/-- The right rows of an outer merge whose key matches no left row,
appended by pandas after the left-driven rows. -/
def rightOnly {α β : Type} (ka : α → String) (kb : β → String)
    (l : List α) (r : List β) : List (String × Option α × Option β) :=
  (r.filter (fun b => !(l.any (fun a => ka a == kb b)))).map
    (fun b => (kb b, none, some b))

/-- The full outer merge: the left-driven rows followed by the
unmatched right rows. -/
def outerMerge {α β : Type} (ka : α → String) (kb : β → String)
    (l : List α) (r : List β) : List (String × Option α × Option β) :=
  l.flatMap (joinRows ka kb r) ++ rightOnly ka kb l r

/-- The `fillna` step of `main` (source lines 99-109) applied to one
doubly-merged row: each still-missing field takes its default (0 for
Attendance% and the test scores, 1 for Attempts, 0 for Fee_Delay_Days,
"Unknown" for Name, Standard and Division). -/
def fillRow
    (row : String × Option (String × Option AttRow × Option TestRow) × Option FeeRow) :
    StudentRecord :=
  let a : Option AttRow := row.2.1.bind (fun p => p.2.1)
  let t : Option TestRow := row.2.1.bind (fun p => p.2.2)
  let f : Option FeeRow := row.2.2
  { StudentID := row.1
    Name := (a.map AttRow.Name).getD "Unknown"
    Standard := (a.map AttRow.Standard).getD "Unknown"
    Division := (a.map AttRow.Division).getD "Unknown"
    attendancePct := (a.map AttRow.attendancePct).getD 0
    Attempts := (a.map AttRow.Attempts).getD 1
    Test1_Score := (t.map TestRow.Test1_Score).getD 0
    Test2_Score := (t.map TestRow.Test2_Score).getD 0
    Test3_Score := (t.map TestRow.Test3_Score).getD 0
    Fee_Delay_Days := (f.map FeeRow.Fee_Delay_Days).getD 0 }

/-- The reconciliation of `main` (source lines 95-109): outer-join
attendance with test scores on StudentID, outer-join the result with
fee payments on StudentID, then `fillna` each still-missing field with
its default. -/
def reconcile (att : List AttRow) (test : List TestRow) (fee : List FeeRow) :
    List StudentRecord :=
  (outerMerge Prod.fst FeeRow.StudentID
    (outerMerge AttRow.StudentID TestRow.StudentID att test) fee).map fillRow

/-- Module-level constant `NUM_STUDENTS = 1000` (source line 8). -/
def NUM_STUDENTS : ℕ := 1000

/-- Module-level constant `STANDARDS = [str(i) for i in range(1, 13)]`
(source line 9). -/
def STANDARDS : List String := (List.range 12).map (fun i => toString (i + 1))

/-- Module-level constant `DIVISIONS = ["A","B","C","D"]` (source
line 10). -/
def DIVISIONS : List String := ["A", "B", "C", "D"]

/-- Truncation to a 32-bit word, the modulus of every Mersenne-Twister
state update. -/
def mtLower (n : ℕ) : ℕ := n % 4294967296

/-- State of numpy's global legacy random generator (external library):
a Mersenne-Twister MT19937 word array plus the read index. -/
structure NPRandomState where
  mt : Array ℕ
  idx : ℕ
deriving Repr

/-- Model of the external `np.random.seed(s)` for an integer seed: the
MT19937 `init_genrand` recurrence
`mt[i] = 1812433253 * (mt[i-1] xor (mt[i-1] >> 30)) + i (mod 2^32)`
starting from `mt[0] = s mod 2^32`, with the index forcing a twist on
the first draw.  All claims proved below depend only on this being a
fixed deterministic function of `s`. -/
def npSeed (s : ℕ) : NPRandomState :=
  let a := (List.range 623).foldl
    (fun a i =>
      let prev := a.getD (a.size - 1) 0
      a.push (mtLower (1812433253 * (prev ^^^ (prev >>> 30)) + (i + 1))))
    #[mtLower s]
  ⟨a, 624⟩

/-- The MT19937 twist step regenerating all 624 state words in place. -/
def mtTwist (a : Array ℕ) : Array ℕ :=
  (List.range 624).foldl
    (fun a i =>
      let y := (a.getD i 0 &&& 2147483648) ||| (a.getD ((i + 1) % 624) 0 &&& 2147483647)
      let v := a.getD ((i + 397) % 624) 0 ^^^ (y >>> 1) ^^^
        (if y % 2 = 1 then 2567483615 else 0)
      a.setD i v) a

/-- The MT19937 tempering transform applied to each extracted word. -/
def mtTemper (x : ℕ) : ℕ :=
  let y := x ^^^ (x >>> 11)
  let y := mtLower (y ^^^ ((y <<< 7) &&& 2636928640))
  let y := mtLower (y ^^^ ((y <<< 15) &&& 4022730752))
  y ^^^ (y >>> 18)

/-- Draw one 32-bit word from the generator, advancing its state. -/
def nextU32 (g : NPRandomState) : ℕ × NPRandomState :=
  if g.idx ≥ 624 then
    let a := mtTwist g.mt
    (mtTemper (a.getD 0 0), ⟨a, 1⟩)
  else
    (mtTemper (g.mt.getD g.idx 0), ⟨g.mt, g.idx + 1⟩)

/-- Model of the external `np.random.uniform(lo, hi)` scalar draw: two
words make a 53-bit numerator `(a >> 5) * 2^26 + (b >> 6)` over `2^53`,
scaled to `[lo, hi)`; idealised over ℚ instead of IEEE doubles. -/
def npUniform (lo hi : ℚ) (g : NPRandomState) : ℚ × NPRandomState :=
  let (a, g) := nextU32 g
  let (b, g) := nextU32 g
  (lo + (((a >>> 5) * 67108864 + (b >>> 6) : ℕ) : ℚ) / 9007199254740992 * (hi - lo), g)

/-- Model of the external bounded integer draw underlying
`np.random.randint(lo, hi)` and `np.random.choice`: one word reduced
into `[0, n)`.  (numpy uses masked rejection sampling; the reduction
used here preserves the state-threading and determinism, which is all
the proved properties depend on.) -/
def npBelow (n : ℕ) (g : NPRandomState) : ℕ × NPRandomState :=
  let (x, g) := nextU32 g
  (x % n, g)

/-- Model of the external `np.random.randint(lo, hi)` scalar draw
(half-open interval). -/
def npRandint (lo hi : ℕ) (g : NPRandomState) : ℕ × NPRandomState :=
  let (x, g) := npBelow (hi - lo) g
  (lo + x, g)

/-- Model of the external `np.random.choice(opts)` scalar draw: index
the option list by a bounded draw. -/
def npChoice {α : Type} (opts : List α) (dflt : α) (g : NPRandomState) :
    α × NPRandomState :=
  let (i, g) := npBelow opts.length g
  (opts.getD i dflt, g)

/-- Draw `n` values in sequence with the scalar draw `f`, threading the
generator state (an array-shaped numpy draw of size `n`). -/
def drawN {α : Type} : ℕ → (NPRandomState → α × NPRandomState) → NPRandomState →
    List α × NPRandomState
  | 0, _, g => ([], g)
  | n + 1, f, g =>
    let (x, g) := f g
    let (xs, g) := drawN n f g
    (x :: xs, g)

/-- Python's `str(i).zfill(w)`: left-pad with zeros to width `w`. -/
def zfill (w : ℕ) (s : String) : String :=
  if s.length ≥ w then s else String.mk (List.replicate (w - s.length) '0') ++ s

/-- `x.round(2)` on the idealised rationals: round to two decimal
places. -/
def round2 (x : ℚ) : ℚ := ((round (x * 100) : ℤ) : ℚ) / 100

/-- The body of `generate_student_data` after the `np.random.seed(42)`
line (source lines 15-37), as a function of the already-seeded
generator state: sequential IDs `S0001, ...`, names `Student_i`,
standards and divisions drawn from the fixed categorical sets,
attendance uniform on `[50,100]` rounded to 2 places, attempts
`randint(1, 6)`, a flat row-major `(num_students, 3)` block of test
scores uniform on `[30,100]` rounded to 2 places, and fee delays drawn
from `[0,0,0,10,20,30]`. -/
def genFrom (g : NPRandomState) (num_students : ℕ) :
    List StudentRecord × NPRandomState :=
  let student_ids := (List.range num_students).map
    (fun i => "S" ++ zfill 4 (toString (i + 1)))
  let names := (List.range num_students).map (fun i => "Student_" ++ toString (i + 1))
  let (standards, g) := drawN num_students (npChoice STANDARDS "1") g
  let (divisions, g) := drawN num_students (npChoice DIVISIONS "A") g
  let (attendance, g) := drawN num_students
    (fun g => let (x, g) := npUniform 50 100 g; (round2 x, g)) g
  let (attempts, g) := drawN num_students (npRandint 1 6) g
  let (test_scores, g) := drawN (num_students * 3)
    (fun g => let (x, g) := npUniform 30 100 g; (round2 x, g)) g
  let (fee_delay_days, g) := drawN num_students (npChoice [0, 0, 0, 10, 20, 30] 0) g
  ((List.range num_students).map (fun i =>
    { StudentID := student_ids.getD i ""
      Name := names.getD i ""
      Standard := standards.getD i "1"
      Division := divisions.getD i "A"
      attendancePct := attendance.getD i 0
      Attempts := ((attempts.getD i 1 : ℕ) : ℚ)
      Test1_Score := test_scores.getD (3 * i) 0
      Test2_Score := test_scores.getD (3 * i + 1) 0
      Test3_Score := test_scores.getD (3 * i + 2) 0
      Fee_Delay_Days := ((fee_delay_days.getD i 0 : ℕ) : ℚ) }), g)

/-- `generate_student_data(num_students)` (source lines 13-37).  The
Python function reads and writes numpy's global generator, so the
embedding takes the ambient generator state explicitly; the first
statement `np.random.seed(42)` discards that ambient state and replaces
it with the fixed seed-42 state, after which the records are drawn. -/
def generate_student_data (_ambient : NPRandomState) (num_students : ℕ) :
    List StudentRecord × NPRandomState :=
  genFrom (npSeed 42) num_students

/-- A user-visible message emitted through the Streamlit UI (external
collaborator): `st.error`, `st.info`, `st.success` or `st.write`. -/
inductive Msg where
  | error : String → Msg
  | info : String → Msg
  | success : String → Msg
  | write : String → Msg
deriving DecidableEq, Repr

/-- `data["Risk_Level"] = data.apply(calculate_risk, axis=1)` (source
line 121): annotate every record with its computed risk label. -/
def addRisk (data : List StudentRecord) : List (StudentRecord × String) :=
  data.map (fun r => (r, calculate_risk r))

/-- The data-acquisition half of `main` (source lines 88-121).  The
external file upload and `pd.read_csv` parsing are modelled by the
argument: `none` when not all three files were uploaded, `some (.error
e)` when the try block around parsing and merging raised an exception
with message `e`, and `some (.ok tables)` when all three tables parsed.
Returns the classified dataset together with the user-visible
messages; on a parse/merge failure the synthetic generator is the
fallback, fed the ambient numpy generator state `g`. -/
def pipeline (g : NPRandomState)
    (files : Option (Except String (List AttRow × List TestRow × List FeeRow))) :
    List (StudentRecord × String) × List Msg :=
  match files with
  | some (Except.ok (att, test, fee)) =>
    (addRisk (reconcile att test fee),
     [Msg.success "Data files uploaded and merged successfully."])
  | some (Except.error e) =>
    (addRisk (generate_student_data g NUM_STUDENTS).1,
     [Msg.error ("Error processing uploaded files: " ++ e),
      Msg.info "Using synthetic data instead."])
  | none =>
    (addRisk (generate_student_data g NUM_STUDENTS).1,
     [Msg.info "Upload all three data files or use synthetic data."])

/-- The sidebar filter (source lines 133-137): keep the records whose
Standard, Division and Risk_Level are each in the corresponding
multiselect selection. -/
def filteredData (data : List (StudentRecord × String))
    (selStd selDiv selRisk : List String) : List (StudentRecord × String) :=
  data.filter (fun p =>
    decide (p.1.Standard ∈ selStd) && decide (p.1.Division ∈ selDiv) &&
    decide (p.2 ∈ selRisk))

/-- The email-configuration sidebar fields (source lines 158-162).
`smtp_port` is the numeric input; the string fields are text inputs. -/
structure EmailConfig where
  smtp_server : String
  smtp_port : ℤ
  sender_email : String
  sender_password : String
  mentor_email : String
deriving DecidableEq, Repr

/-- Python's
`all([smtp_server, smtp_port, sender_email, sender_password, mentor_email])`
(source line 166): every field is truthy, i.e. no string is empty and
the port is non-zero. -/
def configComplete (c : EmailConfig) : Bool :=
  !(c.smtp_server == "") && !(c.smtp_port == 0) && !(c.sender_email == "") &&
  !(c.sender_password == "") && !(c.mentor_email == "")

/-- The notification step behind the send button (source lines
165-196).  `sendOK` is the external SMTP transport's per-recipient
outcome (`send_email` succeeded or raised).  Returns the list of
records for which a send is attempted, in order, together with the
user-visible messages: a single error and no attempts when the
configuration is incomplete; otherwise the attempts are exactly the
rows of the filtered data whose Risk_Level is High, each reported
individually, followed by the aggregate success count. -/
def notifyStep (sendOK : StudentRecord × String → Bool) (c : EmailConfig)
    (filtered : List (StudentRecord × String)) :
    List (StudentRecord × String) × List Msg :=
  if !(configComplete c) then
    ([], [Msg.error "Please fill all email configuration fields."])
  else
    let high_risk_students := filtered.filter (fun p => p.2 == "High")
    if high_risk_students.isEmpty then
      ([], [Msg.info "No high-risk students to notify."])
    else
      let perRow := high_risk_students.map (fun p =>
        if sendOK p then
          Msg.write ("Email sent for " ++ p.1.Name ++ " (ID: " ++ p.1.StudentID ++ ")")
        else Msg.error ("Failed to send email for " ++ p.1.Name))
      let sent_count := (high_risk_students.filter sendOK).length
      (high_risk_students,
       perRow ++ [Msg.success ("Emails sent for " ++ toString sent_count ++ " students.")])

/-- Boundary fixture for the rule table: attendance exactly 75 and fee
delay exactly 15. -/
def recBoundary : StudentRecord :=
  { StudentID := "S0001", Name := "Student_1", Standard := "5", Division := "A"
    attendancePct := 75, Attempts := 2, Test1_Score := 70, Test2_Score := 60
    Test3_Score := 50, Fee_Delay_Days := 15 }

/-- A well-formed record used to instantiate the classifier claims. -/
def recValid : StudentRecord :=
  { StudentID := "S0002", Name := "Student_2", Standard := "6", Division := "B"
    attendancePct := 60, Attempts := 4, Test1_Score := 90, Test2_Score := 95
    Test3_Score := 99, Fee_Delay_Days := 20 }

/-- Attendance fixture table: a single student S1. -/
def attW : List AttRow :=
  [{ StudentID := "S1", Name := "Alice", Standard := "5", Division := "A"
     attendancePct := 80, Attempts := 2 }]

/-- Test-score fixture table: a single student S2 (absent from the
attendance table). -/
def testW : List TestRow :=
  [{ StudentID := "S2", Test1_Score := 70, Test2_Score := 60, Test3_Score := 50 }]

/-- Fee fixture table: S1 (shared with attendance) and S9 (present
nowhere else). -/
def feeW : List FeeRow :=
  [{ StudentID := "S1", Fee_Delay_Days := 20 },
   { StudentID := "S9", Fee_Delay_Days := 30 }]

/-- A fully filled email configuration. -/
def cfgFull : EmailConfig :=
  { smtp_server := "smtp.gmail.com", smtp_port := 465
    sender_email := "sender@example.com", sender_password := "pw"
    mentor_email := "mentor@example.com" }

/-- An email configuration with the sender address left empty. -/
def cfgMissing : EmailConfig :=
  { smtp_server := "smtp.gmail.com", smtp_port := 465
    sender_email := "", sender_password := "pw"
    mentor_email := "mentor@example.com" }

/-- A classified low-risk row used to instantiate the gating claims. -/
def pairLow : StudentRecord × String :=
  ({ StudentID := "S3", Name := "Carol", Standard := "7", Division := "C"
     attendancePct := 90, Attempts := 1, Test1_Score := 80, Test2_Score := 85
     Test3_Score := 90, Fee_Delay_Days := 0 }, "Low")

/-- A classified high-risk row whose Standard is "5", used to
instantiate the filter-gating claim. -/
def pairHigh : StudentRecord × String := (recValid, "High")

/-- HELPER: `calculate_risk` computes exactly the §4.2 rule table. -/
theorem calculate_risk_eq_spec (r : StudentRecord) :
    calculate_risk r = riskLabelSpec (riskScoreSpec r) := by
  unfold calculate_risk riskLabelSpec riskScoreSpec attendancePoints attemptsPoints
    trendPoints feePoints
  split_ifs <;> first | rfl | omega

/-- HELPER: a duplicate-free list of strings whose members are all
equal to `k` has at most one element. -/
theorem length_le_one_of_nodup_const {l : List String} (k : String)
    (hnd : l.Nodup) (hall : ∀ x ∈ l, x = k) : l.length ≤ 1 := by
  match l with
  | [] => simp
  | [a] => simp
  | a :: b :: t =>
    exfalso
    have ha : a = k := hall a (by simp)
    have hb : b = k := hall b (by simp)
    rw [List.nodup_cons] at hnd
    exact hnd.1 (by simp [ha, hb])

/-- HELPER: in a table with duplicate-free keys, at most one row
carries a given key. -/
theorem filter_key_length_le {β : Type} (kb : β → String) (r : List β)
    (hr : (r.map kb).Nodup) (k : String) :
    (r.filter (fun b => kb b == k)).length ≤ 1 := by
  have hsub : List.Sublist ((r.filter (fun b => kb b == k)).map kb) (r.map kb) :=
    (List.filter_sublist r).map kb
  have hnd : ((r.filter (fun b => kb b == k)).map kb).Nodup := hr.sublist hsub
  have hall : ∀ x ∈ (r.filter (fun b => kb b == k)).map kb, x = k := by
    intro x hx
    simp only [List.mem_map, List.mem_filter, beq_iff_eq] at hx
    obtain ⟨b, ⟨_, hbk⟩, rfl⟩ := hx
    exact hbk
  have := length_le_one_of_nodup_const k hnd hall
  simpa using this

/-- HELPER: a list of length at most one is empty or a singleton. -/
theorem short_list_cases {γ : Type} (l : List γ) (h : l.length ≤ 1) :
    l = [] ∨ ∃ x, l = [x] := by
  match l with
  | [] => exact Or.inl rfl
  | [x] => exact Or.inr ⟨x, rfl⟩
  | a :: b :: t => simp at h

/-- HELPER: with duplicate-free right keys, the rows driven by one left
row are a single unmatched row or a single matched row. -/
theorem joinRows_eq {α β : Type} (ka : α → String) (kb : β → String)
    (r : List β) (hr : (r.map kb).Nodup) (a : α) :
    joinRows ka kb r a = [(ka a, some a, none)] ∨
    ∃ b, b ∈ r ∧ kb b = ka a ∧ joinRows ka kb r a = [(ka a, some a, some b)] := by
  rcases short_list_cases _ (filter_key_length_le kb r hr (ka a)) with h | ⟨b, h⟩
  · exact Or.inl (by simp [joinRows, h])
  · refine Or.inr ⟨b, ?_, ?_, ?_⟩
    · have hb : b ∈ r.filter (fun b => kb b == ka a) := by rw [h]; simp
      exact (List.mem_filter.mp hb).1
    · have hb : b ∈ r.filter (fun b => kb b == ka a) := by rw [h]; simp
      simpa using (List.mem_filter.mp hb).2
    · simp [joinRows, h]

/-- HELPER: every row driven by left row `a` carries key `ka a` and the
left payload `some a`. -/
theorem joinRows_fst {α β : Type} (ka : α → String) (kb : β → String)
    (r : List β) (a : α) (x : String × Option α × Option β)
    (hx : x ∈ joinRows ka kb r a) : x.1 = ka a ∧ x.2.1 = some a := by
  simp only [joinRows] at hx
  split at hx
  · simp only [List.mem_singleton] at hx
    subst hx; exact ⟨rfl, rfl⟩
  · simp only [List.mem_map] at hx
    obtain ⟨b, _, rfl⟩ := hx
    exact ⟨rfl, rfl⟩

/-- HELPER: with duplicate-free right keys, the keys of the left-driven
merge rows are exactly the left keys, in order. -/
theorem flatMap_joinRows_keys {α β : Type} (ka : α → String) (kb : β → String)
    (l : List α) (r : List β) (hr : (r.map kb).Nodup) :
    (l.flatMap (joinRows ka kb r)).map Prod.fst = l.map ka := by
  induction l with
  | nil => simp
  | cons a l ih =>
    have hkeys : (joinRows ka kb r a).map Prod.fst = [ka a] := by
      rcases joinRows_eq ka kb r hr a with h | ⟨b, _, _, h⟩ <;> simp [h]
    simp [List.flatMap_cons, hkeys, ih]

/-- HELPER: membership in the unmatched-right-rows segment. -/
theorem rightOnly_mem {α β : Type} (ka : α → String) (kb : β → String)
    (l : List α) (r : List β) (x : String × Option α × Option β) :
    x ∈ rightOnly ka kb l r ↔
      ∃ b, b ∈ r ∧ (∀ a ∈ l, ka a ≠ kb b) ∧ x = (kb b, none, some b) := by
  simp only [rightOnly, List.mem_map, List.mem_filter, Bool.not_eq_eq_eq_not,
    Bool.not_true, List.any_eq_false, beq_eq_false_iff_ne, ne_eq]
  constructor
  · rintro ⟨b, ⟨hb, hall⟩, rfl⟩
    refine ⟨b, hb, ?_, rfl⟩
    intro a ha
    simpa using hall a ha
  · rintro ⟨b, hb, hall, rfl⟩
    refine ⟨b, ⟨hb, ?_⟩, rfl⟩
    intro a ha
    simpa using hall a ha

/-- HELPER: with duplicate-free right keys, the merged keys are the
left keys followed by the unmatched right keys. -/
theorem outerMerge_keys {α β : Type} (ka : α → String) (kb : β → String)
    (l : List α) (r : List β) (hr : (r.map kb).Nodup) :
    (outerMerge ka kb l r).map Prod.fst =
      l.map ka ++
      (r.filter (fun b => !(l.any (fun a => ka a == kb b)))).map kb := by
  simp only [outerMerge, List.map_append, flatMap_joinRows_keys ka kb l r hr,
    rightOnly, List.map_map]
  rfl

/-- HELPER: with duplicate-free keys on both sides, the merged keys are
duplicate-free. -/
theorem outerMerge_keys_nodup {α β : Type} (ka : α → String) (kb : β → String)
    (l : List α) (r : List β) (hl : (l.map ka).Nodup) (hr : (r.map kb).Nodup) :
    ((outerMerge ka kb l r).map Prod.fst).Nodup := by
  rw [outerMerge_keys ka kb l r hr, List.nodup_append]
  refine ⟨hl, ?_, ?_⟩
  · have hsub : List.Sublist
        ((r.filter (fun b => !(l.any (fun a => ka a == kb b)))).map kb) (r.map kb) :=
      (List.filter_sublist r).map kb
    exact hr.sublist hsub
  · intro s hs hs2
    simp only [List.mem_map, List.mem_filter, Bool.not_eq_eq_eq_not, Bool.not_true,
      List.any_eq_false, beq_eq_false_iff_ne, ne_eq] at hs2
    obtain ⟨b, ⟨hb, hall⟩, rfl⟩ := hs2
    obtain ⟨a, ha, hab⟩ := List.mem_map.mp hs
    exact absurd hab (by simpa using hall a ha)

/-- HELPER: with duplicate-free right keys, a key occurs in the merge
exactly when it occurs in either input table. -/
theorem outerMerge_keys_mem {α β : Type} (ka : α → String) (kb : β → String)
    (l : List α) (r : List β) (hr : (r.map kb).Nodup) (s : String) :
    s ∈ (outerMerge ka kb l r).map Prod.fst ↔ s ∈ l.map ka ∨ s ∈ r.map kb := by
  rw [outerMerge_keys ka kb l r hr, List.mem_append]
  constructor
  · rintro (h | h)
    · exact Or.inl h
    · refine Or.inr ?_
      obtain ⟨b, hbf, rfl⟩ := List.mem_map.mp h
      exact List.mem_map.mpr ⟨b, (List.mem_filter.mp hbf).1, rfl⟩
  · rintro (h | h)
    · exact Or.inl h
    · by_cases hsl : s ∈ l.map ka
      · exact Or.inl hsl
      · refine Or.inr ?_
        obtain ⟨b, hb, rfl⟩ := List.mem_map.mp h
        refine List.mem_map.mpr ⟨b, List.mem_filter.mpr ⟨hb, ?_⟩, rfl⟩
        have hne : ∀ a ∈ l, ka a ≠ kb b := by
          intro a ha hab
          exact hsl (List.mem_map.mpr ⟨a, ha, hab⟩)
        simpa using hne

/-- HELPER: a merged row whose key occurs in no left row is an
unmatched right row: left payload `none`, right payload the unique
right row with that key. -/
theorem outerMerge_row_of_notin_left {α β : Type} (ka : α → String)
    (kb : β → String) (l : List α) (r : List β) (s : String)
    (hs : s ∉ l.map ka) (x : String × Option α × Option β)
    (hx : x ∈ outerMerge ka kb l r) (hxs : x.1 = s) :
    ∃ b, b ∈ r ∧ kb b = s ∧ x = (s, none, some b) := by
  rcases List.mem_append.mp hx with h | h
  · exfalso
    obtain ⟨a, ha, hxa⟩ := List.mem_flatMap.mp h
    have hfst := (joinRows_fst ka kb r a x hxa).1
    exact hs (List.mem_map.mpr ⟨a, ha, hfst ▸ hxs⟩)
  · obtain ⟨b, hb, _, rfl⟩ := (rightOnly_mem ka kb l r x).mp h
    have hkb : kb b = s := hxs
    exact ⟨b, hb, hkb, by rw [hkb]⟩

/-- HELPER: a right row whose key occurs in no left row appears in the
merge as an unmatched right row. -/
theorem outerMerge_mem_of_right_only {α β : Type} (ka : α → String)
    (kb : β → String) (l : List α) (r : List β) (s : String)
    (hs : s ∉ l.map ka) (b : β) (hb : b ∈ r) (hkb : kb b = s) :
    (s, (none : Option α), some b) ∈ outerMerge ka kb l r := by
  refine List.mem_append.mpr (Or.inr ?_)
  rw [rightOnly_mem]
  refine ⟨b, hb, ?_, by rw [hkb]⟩
  intro a ha hab
  exact hs (List.mem_map.mpr ⟨a, ha, hab.trans hkb⟩)

/-- HELPER: the StudentIDs of the reconciled records are the keys of
the double merge. -/
theorem reconcile_keys (att : List AttRow) (test : List TestRow) (fee : List FeeRow) :
    (reconcile att test fee).map StudentRecord.StudentID =
    (outerMerge Prod.fst FeeRow.StudentID
      (outerMerge AttRow.StudentID TestRow.StudentID att test) fee).map Prod.fst := by
  unfold reconcile
  rw [List.map_map]
  rfl

/-- CLAIM C2: for three source tables each keyed by StudentID with no
duplicate keys, the reconciler's output (attendance outer-joined with
test scores on StudentID, the result outer-joined with fee payments on
StudentID) contains exactly one record for every StudentID in the
union of the three tables: its StudentID column is duplicate-free and a
StudentID occurs in it exactly when it occurs in some source table. -/
theorem reconcile_join_complete (att : List AttRow) (test : List TestRow)
    (fee : List FeeRow)
    (ha : (att.map AttRow.StudentID).Nodup)
    (ht : (test.map TestRow.StudentID).Nodup)
    (hf : (fee.map FeeRow.StudentID).Nodup) :
    ((reconcile att test fee).map StudentRecord.StudentID).Nodup ∧
    ∀ s : String,
      s ∈ (reconcile att test fee).map StudentRecord.StudentID ↔
      (s ∈ att.map AttRow.StudentID ∨ s ∈ test.map TestRow.StudentID ∨
       s ∈ fee.map FeeRow.StudentID) := by
  have hm1 : ((outerMerge AttRow.StudentID TestRow.StudentID att test).map
      Prod.fst).Nodup :=
    outerMerge_keys_nodup _ _ att test ha ht
  rw [reconcile_keys]
  refine ⟨outerMerge_keys_nodup _ _ _ fee hm1 hf, ?_⟩
  intro s
  rw [outerMerge_keys_mem _ _ _ fee hf s, outerMerge_keys_mem _ _ att test ht s]
  tauto

/-- CLAIM C3: a StudentID present only in the fee-payment table yields
exactly the default-filled unified record: Attendance% 0, Attempts 1,
Name, Standard and Division "Unknown", all three test scores 0, and the
fee table's Fee_Delay_Days preserved unchanged. -/
theorem reconcile_fee_only (att : List AttRow) (test : List TestRow)
    (fee : List FeeRow) (s : String) (fb : FeeRow)
    (ht : (test.map TestRow.StudentID).Nodup)
    (hf : (fee.map FeeRow.StudentID).Nodup)
    (hna : s ∉ att.map AttRow.StudentID)
    (hnt : s ∉ test.map TestRow.StudentID)
    (hfb : fb ∈ fee) (hfs : fb.StudentID = s) :
    (∃ rec, rec ∈ reconcile att test fee ∧ rec.StudentID = s) ∧
    ∀ rec, rec ∈ reconcile att test fee → rec.StudentID = s →
      rec = { StudentID := s, Name := "Unknown", Standard := "Unknown",
              Division := "Unknown", attendancePct := 0, Attempts := 1,
              Test1_Score := 0, Test2_Score := 0, Test3_Score := 0,
              Fee_Delay_Days := fb.Fee_Delay_Days } := by
  have hsm1 : s ∉ (outerMerge AttRow.StudentID TestRow.StudentID att test).map
      Prod.fst := by
    intro hmem
    rcases (outerMerge_keys_mem _ _ att test ht s).mp hmem with h | h
    · exact hna h
    · exact hnt h
  have hx : (s, (none : Option (String × Option AttRow × Option TestRow)), some fb) ∈
      outerMerge Prod.fst FeeRow.StudentID
        (outerMerge AttRow.StudentID TestRow.StudentID att test) fee :=
    outerMerge_mem_of_right_only Prod.fst FeeRow.StudentID _ fee s hsm1 fb hfb hfs
  constructor
  · refine ⟨fillRow (s, none, some fb), ?_, rfl⟩
    unfold reconcile
    exact List.mem_map.mpr ⟨_, hx, rfl⟩
  · intro rec hrec hrs
    unfold reconcile at hrec
    obtain ⟨x, hx2, rfl⟩ := List.mem_map.mp hrec
    have hxs : x.1 = s := hrs
    obtain ⟨b, hb, hkb, rfl⟩ :=
      outerMerge_row_of_notin_left Prod.fst FeeRow.StudentID _ fee s hsm1 x hx2 hxs
    have hbfb : b = fb := List.inj_on_of_nodup_map hf hb hfb (by rw [hkb, hfs])
    subst hbfb
    rfl

/-- CLAIM C1: the classifier computes an integer score starting at 0
with +2 for Attendance% < 75, +2 for Attempts > 3, +1 for a strictly
decreasing test trend, +1 for Fee_Delay_Days > 15, and labels High for
score >= 4, Medium for score >= 2, Low otherwise; both boundary
comparisons are strict, so attendance exactly 75 and fee delay exactly
15 contribute no points. -/
theorem calculate_risk_rule_table (r : StudentRecord) :
    calculate_risk r = riskLabelSpec (riskScoreSpec r) ∧
    (r.attendancePct = 75 → attendancePoints r = 0) ∧
    (r.Fee_Delay_Days = 15 → feePoints r = 0) := by
  refine ⟨calculate_risk_eq_spec r, ?_, ?_⟩
  · intro h
    unfold attendancePoints
    rw [h]
    norm_num
  · intro h
    unfold feePoints
    rw [h]
    norm_num

/-- Witness for C1 at the boundary record (attendance exactly 75, fee
delay exactly 15). -/
theorem calculate_risk_rule_table_witness :
    calculate_risk recBoundary = riskLabelSpec (riskScoreSpec recBoundary) ∧
    attendancePoints recBoundary = 0 ∧ feePoints recBoundary = 0 := by
  have h := calculate_risk_rule_table recBoundary
  exact ⟨h.1, h.2.1 rfl, h.2.2 rfl⟩

/-- CLAIM C5: the classifier is total and deterministic on well-formed
records: it always returns one of Low, Medium, High (it is a pure Lean
function, hence side-effect free and never failing), and equal records
receive equal labels. -/
theorem classify_total_deterministic (r r2 : StudentRecord)
    (_hv : ValidRecord r) (he : r = r2) :
    (calculate_risk r = "Low" ∨ calculate_risk r = "Medium" ∨
     calculate_risk r = "High") ∧
    calculate_risk r = calculate_risk r2 := by
  subst he
  refine ⟨?_, rfl⟩
  unfold calculate_risk
  split_ifs <;> simp

/-- Witness for C5 at a concrete well-formed record. -/
theorem classify_total_deterministic_witness :
    (calculate_risk recValid = "Low" ∨ calculate_risk recValid = "Medium" ∨
     calculate_risk recValid = "High") ∧
    calculate_risk recValid = calculate_risk recValid :=
  classify_total_deterministic recValid recValid (by decide) rfl

/-- CLAIM C4: two invocations of the synthetic generator with the same
population size produce identical output (the seed is the same on
every call, namely the hard-coded 42), whatever the ambient generator
state of either invocation. -/
theorem generator_repeatable (g1 g2 : NPRandomState) (n : ℕ) :
    (generate_student_data g1 n).1 = (generate_student_data g2 n).1 := rfl

/-- CLAIM C10: `generate_student_data` takes no seed parameter and
reseeds the generator with the constant 42 on every call, so its result
is the fixed function `genFrom (npSeed 42)` of the population size
alone, independent of any prior generator state. -/
theorem generator_ignores_ambient_seed (g g2 : NPRandomState) (n : ℕ) :
    generate_student_data g n = genFrom (npSeed 42) n ∧
    generate_student_data g n = generate_student_data g2 n := ⟨rfl, rfl⟩

/-- CLAIM C6: when the try block around parsing and merging raises any
exception `e`, the pipeline still returns normally with the
classified synthetic dataset, surfacing the failure as an error
message carrying `e` plus an informational fallback notice — never a
fatal process error. -/
theorem pipeline_ingest_fallback (g : NPRandomState) (e : String) :
    pipeline g (some (Except.error e)) =
      (addRisk (generate_student_data g NUM_STUDENTS).1,
       [Msg.error ("Error processing uploaded files: " ++ e),
        Msg.info "Using synthetic data instead."]) := rfl

/-- HELPER: the records for which the notification step attempts a
send are either none at all or exactly the high-risk subset of the
filtered data. -/
theorem notifyStep_attempts (sendOK : StudentRecord × String → Bool)
    (c : EmailConfig) (filtered : List (StudentRecord × String)) :
    (notifyStep sendOK c filtered).1 = [] ∨
    (notifyStep sendOK c filtered).1 = filtered.filter (fun p => p.2 == "High") := by
  simp only [notifyStep]
  split_ifs <;> simp

/-- CLAIM C7: a record whose Risk_Level is not High is never among the
records for which the notification step attempts a send. -/
theorem notify_only_high (sendOK : StudentRecord × String → Bool)
    (c : EmailConfig) (filtered : List (StudentRecord × String))
    (p : StudentRecord × String) (hp : p.2 ≠ "High") :
    p ∉ (notifyStep sendOK c filtered).1 := by
  intro hmem
  rcases notifyStep_attempts sendOK c filtered with h | h <;> rw [h] at hmem
  · exact absurd hmem (List.not_mem_nil p)
  · exact hp (by simpa using (List.mem_filter.mp hmem).2)

/-- Witness for C7: a Low record alongside a High one is not sent. -/
theorem notify_only_high_witness :
    pairLow ∉ (notifyStep (fun _ => true) cfgFull [pairLow, pairHigh]).1 :=
  notify_only_high (fun _ => true) cfgFull [pairLow, pairHigh] pairLow (by decide)

/-- CLAIM C8: with any required email-configuration field absent
(falsy), the notification step attempts no send at all and reports
exactly one user-visible message, the configuration error. -/
theorem notify_incomplete_config (sendOK : StudentRecord × String → Bool)
    (c : EmailConfig) (filtered : List (StudentRecord × String))
    (hc : configComplete c = false) :
    notifyStep sendOK c filtered =
      ([], [Msg.error "Please fill all email configuration fields."]) := by
  unfold notifyStep
  rw [hc]
  rfl

/-- Witness for C8: a configuration with an empty sender address leads
to zero attempts and the single error message, even with a high-risk
record pending. -/
theorem notify_incomplete_config_witness :
    notifyStep (fun _ => true) cfgMissing [pairHigh] =
      ([], [Msg.error "Please fill all email configuration fields."]) :=
  notify_incomplete_config (fun _ => true) cfgMissing [pairHigh] (by decide)

/-- CLAIM C9: notifications are drawn from the user-filtered subset:
a record excluded by the Standard, Division or Risk Level selection is
never among the attempted sends, even if its Risk_Level is High. -/
theorem notify_respects_filter (data : List (StudentRecord × String))
    (selStd selDiv selRisk : List String)
    (sendOK : StudentRecord × String → Bool) (c : EmailConfig)
    (p : StudentRecord × String)
    (hp : ¬(p.1.Standard ∈ selStd ∧ p.1.Division ∈ selDiv ∧ p.2 ∈ selRisk)) :
    p ∉ (notifyStep sendOK c (filteredData data selStd selDiv selRisk)).1 := by
  intro hmem
  have hf : p ∈ filteredData data selStd selDiv selRisk := by
    rcases notifyStep_attempts sendOK c (filteredData data selStd selDiv selRisk)
      with h | h <;> rw [h] at hmem
    · exact absurd hmem (List.not_mem_nil p)
    · exact (List.mem_filter.mp hmem).1
  unfold filteredData at hf
  have h2 := (List.mem_filter.mp hf).2
  simp only [Bool.and_eq_true, decide_eq_true_eq] at h2
  exact hp ⟨h2.1.1, h2.1.2, h2.2⟩

/-- Witness for C9: a High record whose Standard "6" is excluded by the
Standard selection ["7"] is not sent. -/
theorem notify_respects_filter_witness :
    pairHigh ∉ (notifyStep (fun _ => true) cfgFull
      (filteredData [pairHigh] ["7"] ["B"] ["High"])).1 :=
  notify_respects_filter [pairHigh] ["7"] ["B"] ["High"] (fun _ => true) cfgFull
    pairHigh (by decide)

/-- Witness for C2 at concrete single-row tables: the reconciled keys
are duplicate-free and the fee-only StudentID S9 appears. -/
theorem reconcile_join_complete_witness :
    ((reconcile attW testW feeW).map StudentRecord.StudentID).Nodup ∧
    ("S9" ∈ (reconcile attW testW feeW).map StudentRecord.StudentID ↔
      ("S9" ∈ attW.map AttRow.StudentID ∨ "S9" ∈ testW.map TestRow.StudentID ∨
       "S9" ∈ feeW.map FeeRow.StudentID)) := by
  have h := reconcile_join_complete attW testW feeW (by decide) (by decide) (by decide)
  exact ⟨h.1, h.2 "S9"⟩

/-- Witness for C3: S9 appears only in the fee table and reconciles to
the default-filled record with its fee delay 30 preserved. -/
theorem reconcile_fee_only_witness :
    ({ StudentID := "S9", Name := "Unknown", Standard := "Unknown",
       Division := "Unknown", attendancePct := 0, Attempts := 1,
       Test1_Score := 0, Test2_Score := 0, Test3_Score := 0,
       Fee_Delay_Days := 30 } : StudentRecord) ∈ reconcile attW testW feeW := by
  have h := reconcile_fee_only attW testW feeW "S9"
    { StudentID := "S9", Fee_Delay_Days := 30 }
    (by decide) (by decide) (by decide) (by decide) (by decide) rfl
  obtain ⟨⟨rec, hmem, hsid⟩, huniq⟩ := h
  have heq := huniq rec hmem hsid
  rw [heq] at hmem
  exact hmem
